import Mathlib

/-!
Shallow embedding of the real-time violation tracking engine
(`api/services/message_processor.py`, class `MessageProcessor`), together
with the zone-threshold resolver, statistics counters, violation-log
persister and the administrative cache / tracking operations.

Modelling conventions:
* Timestamps and durations are integers (seconds); the Python code uses
  floats from `time.time()` but all the verified properties are about the
  ordering and arithmetic of times, which the integers carry faithfully.
* The Redis hash store is a map `String → Option (TrackingRecord × Int)`;
  the `Int` is the absolute expiry instant (`expire key ttl` after a touch
  at time `t` makes the record live exactly while `now < t + ttl`).
* A Python dict field that can be absent, `None`, or a string is modelled
  as `Option (Option String)`; `str(message.get(k, ''))` is `pyStr`.
* The background `asyncio.create_task(_save_violation_log ...)` is
  modelled by appending the scheduled row to `ProcState.scheduled`; the
  durable write itself (`save_violation_log`) is applied separately, so
  that its success or failure is visibly outside `process`.
-/

/-- The six values `process` can put into `be_status`. -/
inductive BeStatus where
  | ENTERED
  | WARNING
  | VIOLATION
  | VIOLATION_ONGOING
  | ERROR
  | INVALID
  deriving DecidableEq, Repr

/-- The Redis hash written by `process` for one `track:{user}:{zone}` key:
fields `start_ts`, `user_name`, `zone_name`, `threshold`, `alerted` (0/1). -/
structure TrackingRecord where
  start_ts : Int
  user_name : String
  zone_name : String
  threshold : Int
  alerted : Nat
  deriving DecidableEq, Repr

/-- One durable violation row as assembled by `_save_violation_log`. -/
structure ViolationLog where
  user_id : String
  zone_id : String
  user_name : String
  zone_name : String
  start_ts : Int
  duration : Int
  threshold : Int
  deriving DecidableEq, Repr

/-- Outcome of the durable zone-configuration lookup in
`_get_zone_threshold`: a row with a threshold, no row
(`scalar_one_or_none` returned `None`), or a raised exception. -/
inductive ZoneDbResult where
  | found (v : Int)
  | notFound
  | failure
  deriving DecidableEq, Repr

/-- Modelled from the spec: the `settings.business` group referenced by the
processor (`tracking_ttl`, `default_threshold`) is absent from the
`config/settings.py` snapshot (whose package `__init__` likewise re-exports
a `RedisSettings` that the snapshot does not define), so the idle-window
TTL and the global default threshold are taken as abstract configured
integers, per the spec's idle window and global default D. -/
structure BusinessSettings where
  tracking_ttl : Int
  default_threshold : Int

/-- The processor's fixed environment: the configured business settings and
the durable zone-configuration store consulted on cache misses. -/
structure Env where
  business : BusinessSettings
  zoneDb : String → ZoneDbResult

/-- The processor's mutable class-level state: the Redis store (value and
absolute expiry instant per key), the RAM zone-config cache, the `_stats`
counters, and the list of violation rows handed to background persistence. -/
structure ProcState where
  redis : String → Option (TrackingRecord × Int)
  zoneCache : String → Option Int
  messages_processed : Nat
  violations_detected : Nat
  warnings_issued : Nat
  errors : Nat
  scheduled : List ViolationLog

/-- One raw input message: `user_id` / `zone_id` may be absent, null, or a
string; optional display names; optional parsed `timestamp`. -/
structure Message where
  user_id : Option (Option String)
  zone_id : Option (Option String)
  user_name : Option String
  zone_name : Option String
  timestamp : Option Int
  deriving DecidableEq, Repr

/-- The enrichment `process` adds to the message: `be_status` plus the
optional `_tracking_duration`, `_violation_duration`, `_threshold` and
`_time_remaining` annotations. -/
structure Enriched where
  be_status : BeStatus
  tracking_duration : Option Int
  violation_duration : Option Int
  threshold : Option Int
  time_remaining : Option Int
  deriving DecidableEq, Repr

/-- `str(message.get(field, ''))` on a field that may be absent, null or a
string: absent gives `""`, null gives `"None"`, a string gives itself. -/
def pyStr : Option (Option String) → String
  | none => ""
  | some none => "None"
  | some (some s) => s

/-- The Redis key `f"track:{user_id}:{zone_id}"`. -/
def trackKey (user_id zone_id : String) : String :=
  "track:" ++ user_id ++ ":" ++ zone_id

/-- Reading a key at time `t`: the stored hash is visible only while `t`
is before the key's absolute expiry instant (Redis TTL eviction). -/
def redisRead (redis : String → Option (TrackingRecord × Int)) (key : String)
    (t : Int) : Option TrackingRecord :=
  match redis key with
  | some (r, expireAt) => if t < expireAt then some r else none
  | none => none

/-- Pointwise update of the store at one key. -/
def redisWrite (redis : String → Option (TrackingRecord × Int)) (key : String)
    (v : Option (TrackingRecord × Int)) : String → Option (TrackingRecord × Int) :=
  fun k => if k = key then v else redis k

/-- `MessageProcessor._get_zone_threshold`: RAM cache first; on a miss,
consult the durable store, fall back to the configured default when the
zone has no row or the lookup raises, and cache whatever was resolved.
Returns the threshold, the updated cache, and whether the durable store
was queried on this call. -/
def get_zone_threshold (env : Env) (cache : String → Option Int)
    (zone_id : String) : Int × (String → Option Int) × Bool :=
  match cache zone_id with
  | some t => (t, cache, false)
  | none =>
    let threshold :=
      match env.zoneDb zone_id with
      | .found v => v
      | .notFound => env.business.default_threshold
      | .failure => env.business.default_threshold
    (threshold, fun z => if z = zone_id then some threshold else cache z, true)

/-- `MessageProcessor.update_zone_cache`: write-through of an admin change. -/
def update_zone_cache (cache : String → Option Int) (zone_id : String)
    (threshold : Int) : String → Option Int :=
  fun z => if z = zone_id then some threshold else cache z

/-- `MessageProcessor.invalidate_zone_cache`: drop one cached zone, or all. -/
def invalidate_zone_cache (cache : String → Option Int) :
    Option String → (String → Option Int)
  | some zone_id => fun z => if z = zone_id then none else cache z
  | none => fun _ => none

/-- The write half of `process`'s touch (code after `pipe.execute()`): given
the state observed by the pipelined read, either create a fresh record
(CASE 1) or classify the ongoing stay and update/refresh it (CASE 2).
In the source these writes are plain commands issued after the read
transaction has committed, so this function is exactly what a concurrent
interleaving can run against a store the read no longer describes. -/
def touchWrite (env : Env) (s : ProcState)
    (user_id zone_id user_name zone_name : String)
    (threshold current_ts : Int) (observed : Option TrackingRecord) :
    Enriched × ProcState :=
  match observed with
  | none =>
    let created : TrackingRecord := ⟨current_ts, user_name, zone_name, threshold, 0⟩
    let expireAt := current_ts + env.business.tracking_ttl
    (⟨.ENTERED, some 0, none, none, none⟩,
     { s with redis := redisWrite s.redis (trackKey user_id zone_id) (some (created, expireAt)) })
  | some r =>
    let duration := current_ts - r.start_ts
    let expireAt := current_ts + env.business.tracking_ttl
    if duration > threshold then
      if r.alerted = 0 then
        let row : ViolationLog :=
          ⟨user_id, zone_id, user_name, zone_name, r.start_ts, duration, threshold⟩
        (⟨.VIOLATION, some duration, some duration, some threshold, none⟩,
         { s with
            redis := redisWrite s.redis (trackKey user_id zone_id) (some ({ r with alerted := 1 }, expireAt)),
            scheduled := s.scheduled ++ [row],
            violations_detected := s.violations_detected + 1 })
      else
        (⟨.VIOLATION_ONGOING, some duration, some duration, some threshold, none⟩,
         { s with redis := redisWrite s.redis (trackKey user_id zone_id) (some (r, expireAt)) })
    else
      (⟨.WARNING, some duration, none, none, some (threshold - duration)⟩,
       { s with
          redis := redisWrite s.redis (trackKey user_id zone_id) (some (r, expireAt)),
          warnings_issued := s.warnings_issued + 1 })

/-- `MessageProcessor.process`: count the message, validate the ids,
resolve the threshold, read the tracking key, and run the touch's write
half on what was read. `now` is the wall clock used when the message
carries no parseable timestamp. -/
def process (env : Env) (s : ProcState) (msg : Message) (now : Int) :
    Enriched × ProcState :=
  let s1 := { s with messages_processed := s.messages_processed + 1 }
  let user_id := pyStr msg.user_id
  let zone_id := pyStr msg.zone_id
  if user_id = "" ∨ zone_id = "" then
    (⟨.INVALID, none, none, none, none⟩, { s1 with errors := s1.errors + 1 })
  else
    let user_name := msg.user_name.getD user_id
    let zone_name := msg.zone_name.getD zone_id
    let current_ts := msg.timestamp.getD now
    let tr := get_zone_threshold env s1.zoneCache zone_id
    let s2 := { s1 with zoneCache := tr.2.1 }
    touchWrite env s2 user_id zone_id user_name zone_name tr.1 current_ts
      (redisRead s2.redis (trackKey user_id zone_id) current_ts)

/-- `MessageProcessor.clear_user_tracking`: delete one tracking key. -/
def clear_user_tracking (s : ProcState) (user_id zone_id : String) : ProcState :=
  { s with redis := redisWrite s.redis (trackKey user_id zone_id) none }

/-- `MessageProcessor._save_violation_log`: append the durable row when the
database write succeeds; on failure log and drop, never raise. -/
def save_violation_log (dbOk : Bool) (db : List ViolationLog)
    (v : ViolationLog) : List ViolationLog :=
  if dbOk then db ++ [v] else db

/-- `process` followed by running the background persistence tasks it
scheduled against the durable log `db`, with `dbOk` saying whether the
database write succeeds. -/
def processAndPersist (env : Env) (dbOk : Bool) (db : List ViolationLog)
    (s : ProcState) (msg : Message) (now : Int) :
    Enriched × ProcState × List ViolationLog :=
  let p := process env s msg now
  (p.1, p.2, (p.2.scheduled.drop s.scheduled.length).foldl
    (save_violation_log dbOk) db)

/-- A sequential run of `process` over a list of event times for one fixed
message shape, collecting the returned statuses and threading the state. -/
def runProcess (env : Env) (msg : Message) :
    ProcState → List Int → List BeStatus × ProcState
  | s, [] => ([], s)
  | s, t :: ts =>
    let p := process env s { msg with timestamp := some t } 0
    let rest := runProcess env msg p.2 ts
    (p.1.be_status :: rest.1, rest.2)

/-! ## Basic lemmas about the store and the resolver -/

theorem redisWrite_self (redis : String → Option (TrackingRecord × Int))
    (key : String) (v : Option (TrackingRecord × Int)) :
    redisWrite redis key v key = v := by
  simp [redisWrite]

theorem redisRead_of_eq (redis : String → Option (TrackingRecord × Int))
    (key : String) (r : TrackingRecord) (e t : Int)
    (h : redis key = some (r, e)) (ht : t < e) :
    redisRead redis key t = some r := by
  simp [redisRead, h, ht]

theorem redisRead_of_none (redis : String → Option (TrackingRecord × Int))
    (key : String) (t : Int) (h : redis key = none) :
    redisRead redis key t = none := by
  simp [redisRead, h]

theorem get_zone_threshold_hit (env : Env) (cache : String → Option Int)
    (zone_id : String) (v : Int) (h : cache zone_id = some v) :
    get_zone_threshold env cache zone_id = (v, cache, false) := by
  simp [get_zone_threshold, h]

theorem get_zone_threshold_caches (env : Env) (cache : String → Option Int)
    (zone_id : String) :
    (get_zone_threshold env cache zone_id).2.1 zone_id =
      some (get_zone_threshold env cache zone_id).1 := by
  unfold get_zone_threshold
  cases h : cache zone_id <;> simp [h]

/-! ## Case equations for `process` -/

theorem process_eq_invalid (env : Env) (s : ProcState) (msg : Message) (now : Int)
    (h : pyStr msg.user_id = "" ∨ pyStr msg.zone_id = "") :
    process env s msg now =
      (⟨.INVALID, none, none, none, none⟩,
       { s with messages_processed := s.messages_processed + 1,
                errors := s.errors + 1 }) := by
  unfold process
  rw [if_pos h]

theorem process_eq_touch (env : Env) (s : ProcState) (msg : Message) (now : Int)
    (hu : pyStr msg.user_id ≠ "") (hz : pyStr msg.zone_id ≠ "") :
    process env s msg now =
      touchWrite env
        { s with messages_processed := s.messages_processed + 1,
                 zoneCache := (get_zone_threshold env s.zoneCache (pyStr msg.zone_id)).2.1 }
        (pyStr msg.user_id) (pyStr msg.zone_id)
        (msg.user_name.getD (pyStr msg.user_id))
        (msg.zone_name.getD (pyStr msg.zone_id))
        (get_zone_threshold env s.zoneCache (pyStr msg.zone_id)).1
        (msg.timestamp.getD now)
        (redisRead s.redis (trackKey (pyStr msg.user_id) (pyStr msg.zone_id))
          (msg.timestamp.getD now)) := by
  unfold process
  rw [if_neg (not_or.mpr ⟨hu, hz⟩)]

theorem touchWrite_none_eq (env : Env) (s : ProcState)
    (u z un zn : String) (T t : Int) :
    touchWrite env s u z un zn T t none =
      (⟨.ENTERED, some 0, none, none, none⟩,
       { s with redis :=
                  redisWrite s.redis (trackKey u z)
                    (some (⟨t, un, zn, T, 0⟩, t + env.business.tracking_ttl)) }) := rfl

theorem touchWrite_violation_eq (env : Env) (s : ProcState)
    (u z un zn : String) (T t : Int) (r : TrackingRecord)
    (h1 : t - r.start_ts > T) (h2 : r.alerted = 0) :
    touchWrite env s u z un zn T t (some r) =
      (⟨.VIOLATION, some (t - r.start_ts), some (t - r.start_ts), some T, none⟩,
       { s with redis :=
                  redisWrite s.redis (trackKey u z)
                    (some ({ r with alerted := 1 }, t + env.business.tracking_ttl)),
                scheduled := s.scheduled ++ [⟨u, z, un, zn, r.start_ts, t - r.start_ts, T⟩],
                violations_detected := s.violations_detected + 1 }) := by
  simp only [touchWrite]
  rw [if_pos h1, if_pos h2]

theorem touchWrite_ongoing_eq (env : Env) (s : ProcState)
    (u z un zn : String) (T t : Int) (r : TrackingRecord)
    (h1 : t - r.start_ts > T) (h2 : r.alerted ≠ 0) :
    touchWrite env s u z un zn T t (some r) =
      (⟨.VIOLATION_ONGOING, some (t - r.start_ts), some (t - r.start_ts), some T, none⟩,
       { s with redis :=
                  redisWrite s.redis (trackKey u z)
                    (some (r, t + env.business.tracking_ttl)) }) := by
  simp only [touchWrite]
  rw [if_pos h1, if_neg h2]

theorem touchWrite_warning_eq (env : Env) (s : ProcState)
    (u z un zn : String) (T t : Int) (r : TrackingRecord)
    (h1 : ¬ t - r.start_ts > T) :
    touchWrite env s u z un zn T t (some r) =
      (⟨.WARNING, some (t - r.start_ts), none, none, some (T - (t - r.start_ts))⟩,
       { s with redis :=
                  redisWrite s.redis (trackKey u z)
                    (some (r, t + env.business.tracking_ttl)),
                warnings_issued := s.warnings_issued + 1 }) := by
  simp only [touchWrite]
  rw [if_neg h1]

/-! ## Concrete fixtures used by the closed instances -/

/-- A concrete environment: TTL 100 s, default threshold 30 s, and a zone
store that knows `Z1 ↦ 10` and nothing else. -/
def demoEnv : Env :=
  ⟨⟨100, 30⟩, fun z => if z = "Z1" then .found 10 else .notFound⟩

/-- An empty processor state. -/
def demoState : ProcState :=
  ⟨fun _ => none, fun _ => none, 0, 0, 0, 0, []⟩

/-- A well-formed message for subject `U1` in zone `Z1`. -/
def demoMsg : Message :=
  ⟨some (some "U1"), some (some "Z1"), none, none, none⟩

/-- A state holding a live not-yet-alerted record for `(U1, Z1)` started at
time 0 with expiry instant 1000, and `Z1 ↦ 10` cached. -/
def demoTracking : ProcState :=
  ⟨fun k => if k = trackKey "U1" "Z1" then some (⟨0, "U1", "Z1", 10, 0⟩, 1000) else none,
   fun z => if z = "Z1" then some 10 else none, 0, 0, 0, 0, []⟩

/-- A state holding a live already-alerted record for `(U1, Z1)` started at
time 0 with expiry instant 1000, and `Z1 ↦ 10` cached. -/
def demoAlerted : ProcState :=
  ⟨fun k => if k = trackKey "U1" "Z1" then some (⟨0, "U1", "Z1", 10, 1⟩, 1000) else none,
   fun z => if z = "Z1" then some 10 else none, 0, 0, 0, 0, []⟩

/-- The `(U1, Z1)` message stamped at t = 5. -/
def demoMsg5 : Message := ⟨some (some "U1"), some (some "Z1"), none, none, some 5⟩

/-- The `(U1, Z1)` message stamped at t = 11. -/
def demoMsg11 : Message := ⟨some (some "U1"), some (some "Z1"), none, none, some 11⟩

/-! ## Claim theorems -/

/-- C3: when a zone has no row in the durable configuration store, or the
lookup fails, resolving returns the global default threshold and caches it,
and a second resolve returns the same default from the cache without a new
store query. -/
theorem claim_C3_default_threshold_cached (env : Env) (cache : String → Option Int)
    (z : String) (hmiss : cache z = none)
    (hdb : env.zoneDb z = .notFound ∨ env.zoneDb z = .failure) :
    (get_zone_threshold env cache z).1 = env.business.default_threshold ∧
    (get_zone_threshold env cache z).2.1 z = some env.business.default_threshold ∧
    get_zone_threshold env (get_zone_threshold env cache z).2.1 z =
      (env.business.default_threshold, (get_zone_threshold env cache z).2.1, false) := by
  have h1 : get_zone_threshold env cache z =
      (env.business.default_threshold,
       fun w => if w = z then some env.business.default_threshold else cache w, true) := by
    rcases hdb with h | h <;> simp [get_zone_threshold, hmiss, h]
  refine ⟨by rw [h1], by rw [h1]; simp, ?_⟩
  rw [h1]
  exact get_zone_threshold_hit _ _ _ _ (by simp)

theorem claim_C3_witness :
    demoState.zoneCache "Z2" = none ∧
    (get_zone_threshold demoEnv demoState.zoneCache "Z2").1 =
      demoEnv.business.default_threshold := by
  refine ⟨rfl, ?_⟩
  exact (claim_C3_default_threshold_cached demoEnv demoState.zoneCache "Z2" rfl
    (Or.inl (by decide))).1

/-- C6: a populated cache entry is served on every later resolve with no
durable-store query, until invalidation of that zone (or of all zones)
removes the entry and forces the next resolve to query again. -/
theorem claim_C6_cache_hit_until_invalidated (env : Env) (cache : String → Option Int)
    (z : String) (v : Int) (hhit : cache z = some v) :
    get_zone_threshold env cache z = (v, cache, false) ∧
    (get_zone_threshold env (invalidate_zone_cache cache (some z)) z).2.2 = true ∧
    (get_zone_threshold env (invalidate_zone_cache cache none) z).2.2 = true := by
  refine ⟨get_zone_threshold_hit env cache z v hhit, ?_, ?_⟩
  · simp [get_zone_threshold, invalidate_zone_cache]
  · simp [get_zone_threshold, invalidate_zone_cache]

theorem claim_C6_witness :
    demoTracking.zoneCache "Z1" = some 10 ∧
    get_zone_threshold demoEnv demoTracking.zoneCache "Z1" =
      (10, demoTracking.zoneCache, false) := by
  refine ⟨rfl, ?_⟩
  exact (claim_C6_cache_hit_until_invalidated demoEnv demoTracking.zoneCache "Z1" 10 rfl).1

/-- C4: an event missing `user_id` or `zone_id` comes back with
`be_status = INVALID`, the errors counter up by exactly one, and no
tracking record created or modified for any key. -/
theorem claim_C4_invalid_event_untouched (env : Env) (s : ProcState) (msg : Message)
    (now : Int) (h : msg.user_id = none ∨ msg.zone_id = none) :
    (process env s msg now).1.be_status = .INVALID ∧
    (process env s msg now).2.errors = s.errors + 1 ∧
    (process env s msg now).2.redis = s.redis ∧
    (process env s msg now).2.scheduled = s.scheduled := by
  have h' : pyStr msg.user_id = "" ∨ pyStr msg.zone_id = "" := by
    rcases h with h | h
    · exact Or.inl (by rw [h]; rfl)
    · exact Or.inr (by rw [h]; rfl)
  rw [process_eq_invalid env s msg now h']
  exact ⟨rfl, rfl, rfl, rfl⟩

theorem claim_C4_witness :
    (process demoEnv demoState ⟨none, some (some "Z1"), none, none, none⟩ 0).1.be_status
      = .INVALID ∧
    (process demoEnv demoState ⟨none, some (some "Z1"), none, none, none⟩ 0).2.errors
      = demoState.errors + 1 := by
  have h := claim_C4_invalid_event_untouched demoEnv demoState
    ⟨none, some (some "Z1"), none, none, none⟩ 0 (Or.inl rfl)
  exact ⟨h.1, h.2.1⟩

/-- C5: the first processed event for a key with no live tracking record
returns `ENTERED` with duration 0 and creates the record with
`start_ts` equal to the event time, `alerted = 0`, and expiry one idle
window after the event time. -/
theorem claim_C5_first_touch_entered (env : Env) (s : ProcState) (msg : Message)
    (now : Int) (hu : pyStr msg.user_id ≠ "") (hz : pyStr msg.zone_id ≠ "")
    (hfresh : redisRead s.redis (trackKey (pyStr msg.user_id) (pyStr msg.zone_id))
        (msg.timestamp.getD now) = none) :
    (process env s msg now).1.be_status = .ENTERED ∧
    (process env s msg now).1.tracking_duration = some 0 ∧
    (process env s msg now).2.redis (trackKey (pyStr msg.user_id) (pyStr msg.zone_id)) =
      some (⟨msg.timestamp.getD now,
             msg.user_name.getD (pyStr msg.user_id),
             msg.zone_name.getD (pyStr msg.zone_id),
             (get_zone_threshold env s.zoneCache (pyStr msg.zone_id)).1, 0⟩,
            msg.timestamp.getD now + env.business.tracking_ttl) := by
  rw [process_eq_touch env s msg now hu hz, hfresh, touchWrite_none_eq]
  exact ⟨rfl, rfl, redisWrite_self _ _ _⟩

theorem claim_C5_witness :
    (process demoEnv demoState demoMsg 7).1.be_status = .ENTERED ∧
    (process demoEnv demoState demoMsg 7).1.tracking_duration = some 0 := by
  have h := claim_C5_first_touch_entered demoEnv demoState demoMsg 7
    (by decide) (by decide) rfl
  exact ⟨h.1, h.2.1⟩

/-- C8: an event for a key with a live record whose dwell duration is at
most the zone threshold returns `WARNING` annotated with
`time_remaining = threshold - duration`. -/
theorem claim_C8_warning_time_remaining (env : Env) (s : ProcState) (msg : Message)
    (now : Int) (r : TrackingRecord)
    (hu : pyStr msg.user_id ≠ "") (hz : pyStr msg.zone_id ≠ "")
    (hread : redisRead s.redis (trackKey (pyStr msg.user_id) (pyStr msg.zone_id))
        (msg.timestamp.getD now) = some r)
    (hdur : msg.timestamp.getD now - r.start_ts ≤
        (get_zone_threshold env s.zoneCache (pyStr msg.zone_id)).1) :
    (process env s msg now).1.be_status = .WARNING ∧
    (process env s msg now).1.time_remaining =
      some ((get_zone_threshold env s.zoneCache (pyStr msg.zone_id)).1 -
            (msg.timestamp.getD now - r.start_ts)) := by
  rw [process_eq_touch env s msg now hu hz, hread,
      touchWrite_warning_eq _ _ _ _ _ _ _ _ _ (not_lt.mpr hdur)]
  exact ⟨rfl, rfl⟩

theorem claim_C8_witness :
    (process demoEnv demoTracking demoMsg5 0).1.be_status = .WARNING ∧
    (process demoEnv demoTracking demoMsg5 0).1.time_remaining =
      some ((get_zone_threshold demoEnv demoTracking.zoneCache
              (pyStr demoMsg5.zone_id)).1 -
            (demoMsg5.timestamp.getD 0 - (0 : Int))) := by
  have h := claim_C8_warning_time_remaining demoEnv demoTracking demoMsg5 0
    ⟨0, "U1", "Z1", 10, 0⟩ (by decide) (by decide) (by decide) (by decide)
  exact ⟨h.1, h.2⟩

/-- C9: after the administrative clear of a key's tracking record, the next
processed event for that key returns `ENTERED` with duration 0, whatever
the deleted record's `alerted` flag was. -/
theorem claim_C9_clear_then_entered (env : Env) (s : ProcState) (msg : Message)
    (now : Int) (hu : pyStr msg.user_id ≠ "") (hz : pyStr msg.zone_id ≠ "") :
    (process env (clear_user_tracking s (pyStr msg.user_id) (pyStr msg.zone_id))
        msg now).1.be_status = .ENTERED ∧
    (process env (clear_user_tracking s (pyStr msg.user_id) (pyStr msg.zone_id))
        msg now).1.tracking_duration = some 0 := by
  have hfresh : redisRead
      (clear_user_tracking s (pyStr msg.user_id) (pyStr msg.zone_id)).redis
      (trackKey (pyStr msg.user_id) (pyStr msg.zone_id))
      (msg.timestamp.getD now) = none :=
    redisRead_of_none _ _ _ (redisWrite_self _ _ _)
  rw [process_eq_touch env _ msg now hu hz, hfresh, touchWrite_none_eq]
  exact ⟨rfl, rfl⟩

theorem claim_C9_witness :
    (process demoEnv (clear_user_tracking demoAlerted "U1" "Z1")
        demoMsg11 0).1.be_status = .ENTERED ∧
    (process demoEnv (clear_user_tracking demoAlerted "U1" "Z1")
        demoMsg11 0).1.tracking_duration = some 0 := by
  have h := claim_C9_clear_then_entered demoEnv demoAlerted demoMsg11 0
    (by decide) (by decide)
  exact ⟨h.1, h.2⟩

/-- C10: a `user_id` or `zone_id` field that is present but null is
coerced by `str(...)` to the non-empty string "None" and the event is
tracked under that string as a real key (here: a fresh key yields
`ENTERED` and a record under `track:None:{zone}`, respectively
`track:{user}:None`), while only an absent field or an empty-string value
— on either id — triggers the `INVALID` path. -/
theorem claim_C10_null_id_coerced (env : Env) (s : ProcState)
    (msgNullUid msgNullZid msgNoUid msgEmptyUid msgNoZid msgEmptyZid : Message)
    (u z : String) (now : Int)
    (hnu : msgNullUid.user_id = some none)
    (hnuz : msgNullUid.zone_id = some (some z)) (hz : z ≠ "")
    (hnz : msgNullZid.zone_id = some none)
    (hnzu : msgNullZid.user_id = some (some u)) (hu : u ≠ "")
    (hnou : msgNoUid.user_id = none)
    (hemu : msgEmptyUid.user_id = some (some ""))
    (hnoz : msgNoZid.zone_id = none)
    (hemz : msgEmptyZid.zone_id = some (some ""))
    (hfresh1 : s.redis (trackKey "None" z) = none)
    (hfresh2 : s.redis (trackKey u "None") = none) :
    pyStr (some none) = "None" ∧
    (process env s msgNullUid now).1.be_status = .ENTERED ∧
    ((process env s msgNullUid now).2.redis (trackKey "None" z)).isSome = true ∧
    (process env s msgNullZid now).1.be_status = .ENTERED ∧
    ((process env s msgNullZid now).2.redis (trackKey u "None")).isSome = true ∧
    (process env s msgNoUid now).1.be_status = .INVALID ∧
    (process env s msgEmptyUid now).1.be_status = .INVALID ∧
    (process env s msgNoZid now).1.be_status = .INVALID ∧
    (process env s msgEmptyZid now).1.be_status = .INVALID := by
  have hu1 : pyStr msgNullUid.user_id ≠ "" := by rw [hnu]; decide
  have hz1 : pyStr msgNullUid.zone_id ≠ "" := by rw [hnuz]; exact hz
  have hu2 : pyStr msgNullZid.user_id ≠ "" := by rw [hnzu]; exact hu
  have hz2 : pyStr msgNullZid.zone_id ≠ "" := by rw [hnz]; decide
  refine ⟨rfl, ?_, ?_, ?_, ?_, ?_, ?_, ?_, ?_⟩
  · rw [process_eq_touch env s msgNullUid now hu1 hz1, hnu, hnuz]
    simp only [pyStr]
    rw [redisRead_of_none _ _ _ hfresh1, touchWrite_none_eq]
  · rw [process_eq_touch env s msgNullUid now hu1 hz1, hnu, hnuz]
    simp only [pyStr]
    rw [redisRead_of_none _ _ _ hfresh1, touchWrite_none_eq]
    simp [redisWrite_self]
  · rw [process_eq_touch env s msgNullZid now hu2 hz2, hnz, hnzu]
    simp only [pyStr]
    rw [redisRead_of_none _ _ _ hfresh2, touchWrite_none_eq]
  · rw [process_eq_touch env s msgNullZid now hu2 hz2, hnz, hnzu]
    simp only [pyStr]
    rw [redisRead_of_none _ _ _ hfresh2, touchWrite_none_eq]
    simp [redisWrite_self]
  · rw [process_eq_invalid env s msgNoUid now (Or.inl (by rw [hnou]; rfl))]
  · rw [process_eq_invalid env s msgEmptyUid now (Or.inl (by rw [hemu]; rfl))]
  · rw [process_eq_invalid env s msgNoZid now (Or.inr (by rw [hnoz]; rfl))]
  · rw [process_eq_invalid env s msgEmptyZid now (Or.inr (by rw [hemz]; rfl))]

theorem claim_C10_witness :
    (process demoEnv demoState ⟨some none, some (some "Z1"), none, none, some 3⟩
        0).1.be_status = .ENTERED ∧
    ((process demoEnv demoState ⟨some none, some (some "Z1"), none, none, some 3⟩
        0).2.redis (trackKey "None" "Z1")).isSome = true ∧
    (process demoEnv demoState ⟨some (some "U1"), some none, none, none, some 3⟩
        0).1.be_status = .ENTERED ∧
    ((process demoEnv demoState ⟨some (some "U1"), some none, none, none, some 3⟩
        0).2.redis (trackKey "U1" "None")).isSome = true ∧
    (process demoEnv demoState ⟨none, some (some "Z1"), none, none, some 3⟩
        0).1.be_status = .INVALID ∧
    (process demoEnv demoState ⟨some (some "U1"), none, none, none, some 3⟩
        0).1.be_status = .INVALID ∧
    (process demoEnv demoState ⟨some (some "U1"), some (some ""), none, none, some 3⟩
        0).1.be_status = .INVALID := by
  have h := claim_C10_null_id_coerced demoEnv demoState
    ⟨some none, some (some "Z1"), none, none, some 3⟩
    ⟨some (some "U1"), some none, none, none, some 3⟩
    ⟨none, some (some "Z1"), none, none, some 3⟩
    ⟨some (some ""), some (some "Z1"), none, none, some 3⟩
    ⟨some (some "U1"), none, none, none, some 3⟩
    ⟨some (some "U1"), some (some ""), none, none, some 3⟩
    "U1" "Z1" 0 rfl rfl (by decide) rfl rfl (by decide) rfl rfl rfl rfl rfl rfl
  exact ⟨h.2.1, h.2.2.1, h.2.2.2.1, h.2.2.2.2.1, h.2.2.2.2.2.1,
    h.2.2.2.2.2.2.2.1, h.2.2.2.2.2.2.2.2⟩

theorem foldl_save_fail (l : List ViolationLog) (db : List ViolationLog) :
    l.foldl (save_violation_log false) db = db := by
  induction l generalizing db with
  | nil => rfl
  | cons a l ih => simp [List.foldl_cons, save_violation_log, ih]

/-- C7: a failing background violation-persistence write changes nothing
observable from `process`: the enriched event and the processor state
(counters included) are identical whether the durable write succeeds or
fails, only the durable rows are lost, and on the `VIOLATION` transition
the `violations_detected` counter is still up by one. -/
theorem claim_C7_persistence_failure_isolated (env : Env) (db : List ViolationLog)
    (s : ProcState) (msg : Message) (now : Int) :
    (processAndPersist env false db s msg now).1 =
      (processAndPersist env true db s msg now).1 ∧
    (processAndPersist env false db s msg now).2.1 =
      (processAndPersist env true db s msg now).2.1 ∧
    (processAndPersist env false db s msg now).2.2 = db ∧
    ((process env s msg now).1.be_status = .VIOLATION →
      (process env s msg now).2.violations_detected = s.violations_detected + 1) := by
  refine ⟨rfl, rfl, foldl_save_fail _ _, ?_⟩
  rcases em (pyStr msg.user_id = "" ∨ pyStr msg.zone_id = "") with hbad | hok
  · rw [process_eq_invalid env s msg now hbad]
    intro h
    simp at h
  · have hu := (not_or.mp hok).1
    have hz := (not_or.mp hok).2
    rw [process_eq_touch env s msg now hu hz]
    cases hobs : redisRead s.redis (trackKey (pyStr msg.user_id) (pyStr msg.zone_id))
        (msg.timestamp.getD now) with
    | none =>
      rw [touchWrite_none_eq]
      intro h
      simp at h
    | some r =>
      by_cases h1 : msg.timestamp.getD now - r.start_ts >
          (get_zone_threshold env s.zoneCache (pyStr msg.zone_id)).1
      · by_cases h2 : r.alerted = 0
        · rw [touchWrite_violation_eq _ _ _ _ _ _ _ _ _ h1 h2]
          intro _
          rfl
        · rw [touchWrite_ongoing_eq _ _ _ _ _ _ _ _ _ h1 h2]
          intro h
          simp at h
      · rw [touchWrite_warning_eq _ _ _ _ _ _ _ _ _ h1]
        intro h
        simp at h

theorem claim_C7_witness :
    (processAndPersist demoEnv false [] demoTracking demoMsg11 0).2.2 = [] ∧
    (process demoEnv demoTracking demoMsg11 0).2.violations_detected =
      demoTracking.violations_detected + 1 := by
  have h := claim_C7_persistence_failure_isolated demoEnv [] demoTracking demoMsg11 0
  exact ⟨h.2.2.1, h.2.2.2 (by decide)⟩

/-- C1: refuted at a concrete interleaving. In the source the pipelined
transaction covers only the `hgetall`/`ttl` read; the conditional writes
(`hset`, `expire`) are separate commands issued afterwards, so the touch is
read-then-write in two steps, not an atomic unit. Two concurrent touches on
the same key that both read before either writes both observe
`alerted = 0`, both return `VIOLATION`, and two violation-log writes are
scheduled for one episode — exactly what the claim says can never happen. -/
theorem claim_C1_double_violation_interleaving :
    (touchWrite demoEnv demoTracking "U1" "Z1" "U1" "Z1" 10 11
        (redisRead demoTracking.redis (trackKey "U1" "Z1") 11)).1.be_status
      = .VIOLATION ∧
    (touchWrite demoEnv
        (touchWrite demoEnv demoTracking "U1" "Z1" "U1" "Z1" 10 11
          (redisRead demoTracking.redis (trackKey "U1" "Z1") 11)).2
        "U1" "Z1" "U1" "Z1" 10 12
        (redisRead demoTracking.redis (trackKey "U1" "Z1") 12)).1.be_status
      = .VIOLATION ∧
    (touchWrite demoEnv
        (touchWrite demoEnv demoTracking "U1" "Z1" "U1" "Z1" 10 11
          (redisRead demoTracking.redis (trackKey "U1" "Z1") 11)).2
        "U1" "Z1" "U1" "Z1" 10 12
        (redisRead demoTracking.redis (trackKey "U1" "Z1") 12)).2.scheduled.length
      = 2 := by
  decide

/-! ## The debounce episode (C2) -/

theorem runProcess_cons (env : Env) (msg : Message) (s : ProcState) (t : Int)
    (ts : List Int) :
    runProcess env msg s (t :: ts) =
      ((process env s { msg with timestamp := some t } 0).1.be_status ::
        (runProcess env msg (process env s { msg with timestamp := some t } 0).2 ts).1,
       (runProcess env msg (process env s { msg with timestamp := some t } 0).2 ts).2) :=
  rfl

theorem process_timestamped (env : Env) (s : ProcState) (msg : Message) (t : Int)
    (hu : pyStr msg.user_id ≠ "") (hz : pyStr msg.zone_id ≠ "") :
    process env s { msg with timestamp := some t } 0 =
      touchWrite env
        { s with messages_processed := s.messages_processed + 1,
                 zoneCache := (get_zone_threshold env s.zoneCache (pyStr msg.zone_id)).2.1 }
        (pyStr msg.user_id) (pyStr msg.zone_id)
        (msg.user_name.getD (pyStr msg.user_id))
        (msg.zone_name.getD (pyStr msg.zone_id))
        (get_zone_threshold env s.zoneCache (pyStr msg.zone_id)).1
        t
        (redisRead s.redis (trackKey (pyStr msg.user_id) (pyStr msg.zone_id)) t) :=
  process_eq_touch env s _ 0 hu hz

theorem get_zone_threshold_hit_fst (env : Env) (cache : String → Option Int)
    (zone_id : String) (v : Int) (h : cache zone_id = some v) :
    (get_zone_threshold env cache zone_id).1 = v := by
  rw [get_zone_threshold_hit env cache zone_id v h]

theorem get_zone_threshold_hit_cache (env : Env) (cache : String → Option Int)
    (zone_id : String) (v : Int) (h : cache zone_id = some v) :
    (get_zone_threshold env cache zone_id).2.1 = cache := by
  rw [get_zone_threshold_hit env cache zone_id v h]

/-- Once the `(subject, zone)` record is alerted and the dwell already
exceeds the threshold, every further touch of an unbroken episode (strictly
increasing times, each gap under the idle TTL) yields `VIOLATION_ONGOING`
and schedules nothing. -/
theorem runProcess_ongoing (env : Env) (msg : Message) (T t0 : Int)
    (hu : pyStr msg.user_id ≠ "") (hz : pyStr msg.zone_id ≠ "") :
    ∀ (ts : List Int) (p : Int) (s : ProcState) (r : TrackingRecord),
      List.Chain (fun x y => x < y ∧ y < x + env.business.tracking_ttl) p ts →
      s.zoneCache (pyStr msg.zone_id) = some T →
      s.redis (trackKey (pyStr msg.user_id) (pyStr msg.zone_id)) =
        some (r, p + env.business.tracking_ttl) →
      r.start_ts = t0 → r.alerted = 1 → T < p - t0 →
      (runProcess env msg s ts).1 = List.replicate ts.length .VIOLATION_ONGOING ∧
      (runProcess env msg s ts).2.scheduled = s.scheduled := by
  intro ts
  induction ts with
  | nil =>
    intro p s r _ _ _ _ _ _
    exact ⟨rfl, rfl⟩
  | cons t ts ih =>
    intro p s r hchain hcache hredis hstart halert hpast
    rw [List.chain_cons] at hchain
    obtain ⟨⟨hpt, htp⟩, hchain'⟩ := hchain
    have hstep := process_timestamped env s msg t hu hz
    rw [get_zone_threshold_hit_fst env s.zoneCache (pyStr msg.zone_id) T hcache,
        get_zone_threshold_hit_cache env s.zoneCache (pyStr msg.zone_id) T hcache,
        redisRead_of_eq s.redis _ r (p + env.business.tracking_ttl) t hredis htp,
        touchWrite_ongoing_eq _ _ _ _ _ _ _ _ _ (by omega) (by omega)] at hstep
    have hih := ih t (process env s { msg with timestamp := some t } 0).2 r
      hchain' (by rw [hstep]; exact hcache) (by rw [hstep]; exact redisWrite_self _ _ _)
      hstart halert (by omega)
    constructor
    · rw [runProcess_cons, List.length_cons, List.replicate_succ, hih.1, hstep]
    · rw [runProcess_cons]
      rw [hih.2, hstep]

/-- Before the alert flag is set, an unbroken episode whose last dwell
exceeds the threshold yields some `WARNING`s, then one `VIOLATION`, then
only `VIOLATION_ONGOING`, and schedules exactly one violation row. -/
theorem runProcess_prealert (env : Env) (msg : Message) (T t0 : Int)
    (hu : pyStr msg.user_id ≠ "") (hz : pyStr msg.zone_id ≠ "") :
    ∀ (ts : List Int) (p : Int) (s : ProcState) (r : TrackingRecord) (hne : ts ≠ []),
      List.Chain (fun x y => x < y ∧ y < x + env.business.tracking_ttl) p ts →
      s.zoneCache (pyStr msg.zone_id) = some T →
      s.redis (trackKey (pyStr msg.user_id) (pyStr msg.zone_id)) =
        some (r, p + env.business.tracking_ttl) →
      r.start_ts = t0 → r.alerted = 0 →
      T < ts.getLast hne - t0 →
      ∃ a b, (runProcess env msg s ts).1 =
          List.replicate a .WARNING ++
            .VIOLATION :: List.replicate b .VIOLATION_ONGOING ∧
        (runProcess env msg s ts).2.scheduled.length = s.scheduled.length + 1 := by
  intro ts
  induction ts with
  | nil =>
    intro p s r hne
    exact absurd rfl hne
  | cons t ts ih =>
    intro p s r hne hchain hcache hredis hstart halert hlast
    rw [List.chain_cons] at hchain
    obtain ⟨⟨hpt, htp⟩, hchain'⟩ := hchain
    have hstep := process_timestamped env s msg t hu hz
    rw [get_zone_threshold_hit_fst env s.zoneCache (pyStr msg.zone_id) T hcache,
        get_zone_threshold_hit_cache env s.zoneCache (pyStr msg.zone_id) T hcache,
        redisRead_of_eq s.redis _ r (p + env.business.tracking_ttl) t hredis htp] at hstep
    by_cases hviol : T < t - t0
    · rw [touchWrite_violation_eq _ _ _ _ _ _ _ _ _ (by omega) halert] at hstep
      have hong := runProcess_ongoing env msg T t0 hu hz ts t
        (process env s { msg with timestamp := some t } 0).2 { r with alerted := 1 }
        hchain' (by rw [hstep]; exact hcache)
        (by rw [hstep]; exact redisWrite_self _ _ _)
        hstart rfl (by omega)
      refine ⟨0, ts.length, ?_, ?_⟩
      · rw [runProcess_cons, hong.1, hstep]
        simp
      · rw [runProcess_cons, hong.2, hstep]
        simp
    · have hne' : ts ≠ [] := by
        intro h
        subst h
        simp only [List.getLast_singleton] at hlast
        exact hviol hlast
      have hlast' : T < ts.getLast hne' - t0 := by
        rwa [List.getLast_cons hne'] at hlast
      rw [touchWrite_warning_eq _ _ _ _ _ _ _ _ _ (by omega)] at hstep
      obtain ⟨a, b, hshape, hlen⟩ := ih t
        (process env s { msg with timestamp := some t } 0).2 r hne'
        hchain' (by rw [hstep]; exact hcache)
        (by rw [hstep]; exact redisWrite_self _ _ _)
        hstart halert hlast'
      refine ⟨a + 1, b, ?_, ?_⟩
      · rw [runProcess_cons, hshape, hstep]
        simp [List.replicate_succ]
      · rw [runProcess_cons, hlen, hstep]

/-- C2: over one unbroken episode for a fresh `(subject, zone)` key —
strictly increasing event times, every gap below the idle TTL, no manual
clear — whose dwell ends past the zone threshold, the run of `process`
returns `ENTERED` first, then some `WARNING`s, `VIOLATION` on exactly one
call, `VIOLATION_ONGOING` on every later call, and exactly one
violation-log write is scheduled for the whole episode. -/
theorem claim_C2_debounce_episode (env : Env) (s : ProcState) (msg : Message)
    (t0 : Int) (rest : List Int)
    (hu : pyStr msg.user_id ≠ "") (hz : pyStr msg.zone_id ≠ "")
    (hfresh : s.redis (trackKey (pyStr msg.user_id) (pyStr msg.zone_id)) = none)
    (hchain : List.Chain (fun x y => x < y ∧ y < x + env.business.tracking_ttl)
      t0 rest)
    (hne : rest ≠ [])
    (hpast : (get_zone_threshold env s.zoneCache (pyStr msg.zone_id)).1 <
        rest.getLast hne - t0) :
    (∃ a b, (runProcess env msg s (t0 :: rest)).1 =
        .ENTERED :: (List.replicate a .WARNING ++
          .VIOLATION :: List.replicate b .VIOLATION_ONGOING)) ∧
    (runProcess env msg s (t0 :: rest)).1.count .VIOLATION = 1 ∧
    (runProcess env msg s (t0 :: rest)).2.scheduled.length =
      s.scheduled.length + 1 := by
  have hstep := process_timestamped env s msg t0 hu hz
  rw [redisRead_of_none _ _ _ hfresh, touchWrite_none_eq] at hstep
  obtain ⟨a, b, hshape, hlen⟩ :=
    runProcess_prealert env msg
      (get_zone_threshold env s.zoneCache (pyStr msg.zone_id)).1 t0 hu hz
      rest t0 (process env s { msg with timestamp := some t0 } 0).2
      ⟨t0, msg.user_name.getD (pyStr msg.user_id),
       msg.zone_name.getD (pyStr msg.zone_id),
       (get_zone_threshold env s.zoneCache (pyStr msg.zone_id)).1, 0⟩
      hne hchain
      (by rw [hstep]; exact get_zone_threshold_caches env s.zoneCache (pyStr msg.zone_id))
      (by rw [hstep]; exact redisWrite_self _ _ _)
      rfl rfl hpast
  refine ⟨⟨a, b, ?_⟩, ?_, ?_⟩
  · rw [runProcess_cons, hshape, hstep]
  · rw [runProcess_cons, hshape, hstep]
    simp [List.count_cons, List.count_append, List.count_replicate]
  · rw [runProcess_cons, hlen, hstep]

theorem claim_C2_witness :
    (runProcess demoEnv demoMsg demoState (0 :: [5, 11, 15])).1.count .VIOLATION = 1 ∧
    (runProcess demoEnv demoMsg demoState (0 :: [5, 11, 15])).2.scheduled.length =
      demoState.scheduled.length + 1 := by
  have h := claim_C2_debounce_episode demoEnv demoState demoMsg 0 [5, 11, 15]
    (by decide) (by decide) rfl
    (List.Chain.cons (by decide) (List.Chain.cons (by decide)
      (List.Chain.cons (by decide) List.Chain.nil)))
    (by decide) (by decide)
  exact ⟨h.2.1, h.2.2⟩
